import Mathlib

/-!
Verification of the azure-time-series-table-storage repository.

The core under scrutiny is the synthetic time-series generator
(`generateHourlyData` / `getWaterLevel` / `makeCycle` in DataGenerator.ts)
together with one method of the PromiseTableService wrapper
(PromiseTableService.ts).

Embedding conventions:
* Machine doubles are embedded as exact arithmetic: `ℚ` for durations and
  millisecond timestamps (where the source only adds, multiplies, divides
  and takes ceilings) and `ℝ` for the water-level values (which involve
  `cos` and `π`).
* lodash `range(start, end, step)` materialises
  `max(ceil((end - start) / (step || 1)), 0)` elements; element `k` is
  `start` after `k` additions of `step`, i.e. `start + k * step` in exact
  arithmetic.
* `new Date(2020, 0, 1, 0)` interprets its arguments in the LOCAL time
  zone of the running environment (ECMAScript `MakeDate`/`UTC` semantics),
  so the reference epoch depends on the environment's UTC offset.  The
  embedding makes that dependence explicit through the parameter
  `tzOffsetMin`, the value of JavaScript `getTimezoneOffset()` (minutes
  that must be added to local time to reach UTC).  At UTC
  (`tzOffsetMin = 0`) the epoch is 1577836800000 ms, i.e.
  2020-01-01T00:00:00Z.
* The body of `generateHourlyData` contains no `throw`; its fallible
  embedding `generateHourlyDataRun` therefore always returns `Except.ok`.
-/

/-- Milliseconds since the Unix epoch of `new Date(2020, 0, 1, 0).getTime()`
in an environment whose `getTimezoneOffset()` is `tzOffsetMin` minutes:
local 2020-01-01T00:00 corresponds to UTC epoch
`1577836800000 + tzOffsetMin * 60000`. -/
def startTime (tzOffsetMin : ℤ) : ℚ :=
  1577836800000 + (tzOffsetMin : ℚ) * 60000

/-- Element count of lodash `range(start, end, step)`:
`max(ceil((end - start) / (step || 1)), 0)` (the `toNat` of the ceiling
realises the clamp at zero). -/
def rangeLength (start stop step : ℚ) : ℕ :=
  (Int.ceil ((stop - start) / (if step = 0 then 1 else step))).toNat

/-- lodash `range(start, end, step)`: `rangeLength` elements, the k-th being
`start + k * step` (the exact-arithmetic value of `start` after `k`
repeated additions of `step`). -/
def lodashRange (start stop step : ℚ) : List ℚ :=
  (List.range (rangeLength start stop step)).map
    (fun (k : ℕ) => start + (k : ℚ) * (if step = 0 then 1 else step))

/-- Function `makeCycle` from DataGenerator.ts:
`amplitude * Math.cos(x * ((2 * Math.PI) / period)) + trend * x + yShift`,
with the source's default parameter values `amplitude = 1`, `period = 1`,
`trend = 0`, `yShift = 0`. -/
noncomputable def makeCycle (x : ℝ) (amplitude : ℝ := 1) (period : ℝ := 1)
    (trend : ℝ := 0) (yShift : ℝ := 0) : ℝ :=
  amplitude * Real.cos (x * (2 * Real.pi / period)) + trend * x + yShift

/-- Function `getWaterLevel` from DataGenerator.ts.  Note the argument lists: the
rainfall and daily-usage calls pass only four arguments, so `0.5` and
`-0.5` are the TREND parameters and `yShift` falls back to its default
`0`. -/
noncomputable def getWaterLevel (x : ℝ) : ℝ :=
  makeCycle x (-30) 365 0 50 +
  makeCycle x (-0.5) 10 0.5 +
  makeCycle x (-0.15) 1 (-0.5)

/-- The record put on the queue: a water level (a real) and a date
(milliseconds since the Unix epoch, kept exact as a rational). -/
structure TelemetryMessage where
  waterLevel : ℝ
  date : ℚ

/-- Function `generateHourlyData` from DataGenerator.ts:
`range(0, durationDays, 1 / 24).map(x => ({waterLevel: getWaterLevel(x),
date: new Date(x * 24 * 60 * 60 * 1000 + startTime)}))`. -/
noncomputable def generateHourlyData (tzOffsetMin : ℤ) (durationDays : ℚ) :
    List TelemetryMessage :=
  (lodashRange 0 durationDays (1/24)).map (fun (x : ℚ) =>
    { waterLevel := getWaterLevel (x : ℝ)
      date := x * 24 * 60 * 60 * 1000 + startTime tzOffsetMin })

/-- Error kinds the spec's taxonomy names for the generator. -/
inductive GenError
  | invalidArgument
  deriving DecidableEq

/-- Fallible embedding of a call to `generateHourlyData`.  The source body
contains no `throw` statement and none of the operations it performs
(lodash `range`, `map`, arithmetic, `Date` construction) raises, so the
call always returns normally. -/
noncomputable def generateHourlyDataRun (tzOffsetMin : ℤ) (durationDays : ℚ) :
    Except GenError (List TelemetryMessage) :=
  Except.ok (generateHourlyData tzOffsetMin durationDays)

/-- The cycle function exactly as the spec writes it:
`result = amplitude * cos(x * (2*π / period)) + trend * x + shift`. -/
noncomputable def specCycle (x amplitude period trend shift : ℝ) : ℝ :=
  amplitude * Real.cos (x * (2 * Real.pi / period)) + trend * x + shift

/-- The per-sample value exactly as the spec writes it:
`cycle(x,-30,365,trend 0,shift 50) + cycle(x,-0.5,10,trend 0,shift 0.5)
+ cycle(x,-0.15,1,trend 0,shift -0.5)`. -/
noncomputable def specValue (x : ℝ) : ℝ :=
  specCycle x (-30) 365 0 50 +
  specCycle x (-0.5) 10 0 0.5 +
  specCycle x (-0.15) 1 0 (-0.5)

/-- Operations of the underlying callback-based `TableService` that
PromiseTableService forwards to through `promiseResult`. -/
inductive UnderlyingOp
  | createTable
  | createTableIfNotExists
  | deleteTable
  | deleteTableIfExists
  | doesTableExist
  deriving DecidableEq

/-- A call record of the wrapper: which underlying `TableService` operation
it hands to `promiseResult`, with the forwarded table name and request
options (`ρ` is the options type; `none` embeds an omitted argument). -/
structure SvcInvocation (ρ : Type) where
  op : UnderlyingOp
  table : String
  options : Option ρ

namespace PromiseTableService

/-- Method `createTable(table, options)` from PromiseTableService.ts: forwards
`this.svc.createTable` with the table name and options. -/
def createTable (ρ : Type) (table : String) (options : Option ρ) :
    SvcInvocation ρ :=
  { op := UnderlyingOp.createTable, table := table, options := options }

/-- Method `deleteTableIfExists(table, options)` from PromiseTableService.ts,
line 269: its body is
`return this.promiseResult<boolean>(this.svc.createTable, table, options)` —
it forwards the underlying CREATE operation, not the delete. -/
def deleteTableIfExists (ρ : Type) (table : String) (options : Option ρ) :
    SvcInvocation ρ :=
  { op := UnderlyingOp.createTable, table := table, options := options }

end PromiseTableService

/-! ## Helper lemmas -/

theorem rangeLength_eq (d : ℚ) :
    rangeLength 0 d (1/24) = (Int.ceil (24 * d)).toNat := by
  have h : (d - 0) / ((1:ℚ)/24) = 24 * d := by
    field_simp
    ring
  unfold rangeLength
  rw [if_neg (by norm_num : ¬ ((1:ℚ)/24) = 0), h]

theorem generateHourlyData_length (tz : ℤ) (d : ℚ) :
    (generateHourlyData tz d).length = (Int.ceil (24 * d)).toNat := by
  unfold generateHourlyData lodashRange
  rw [List.length_map, List.length_map, List.length_range, rangeLength_eq]

theorem generateHourlyData_dates (tz : ℤ) (d : ℚ) :
    (generateHourlyData tz d).map TelemetryMessage.date =
      (List.range (rangeLength 0 d (1/24))).map
        (fun (k : ℕ) => (k : ℚ) * 3600000 + startTime tz) := by
  unfold generateHourlyData lodashRange
  simp only [List.map_map, Function.comp_def]
  apply List.map_congr_left
  intro k _
  rw [if_neg (by norm_num : ¬ ((1:ℚ)/24) = 0)]
  ring

theorem rangeLength_natCast (d : ℚ) (n : ℕ) (h : 24 * d = (n : ℚ)) :
    rangeLength 0 d (1/24) = n := by
  rw [rangeLength_eq, h, Int.ceil_natCast, Int.toNat_natCast]

theorem generateHourlyData_values (tz : ℤ) (d : ℚ) :
    (generateHourlyData tz d).map TelemetryMessage.waterLevel =
      (List.range (rangeLength 0 d (1/24))).map
        (fun (k : ℕ) => getWaterLevel ((k : ℝ) / 24)) := by
  unfold generateHourlyData lodashRange
  simp only [List.map_map, Function.comp_def]
  apply List.map_congr_left
  intro k _
  rw [if_neg (by norm_num : ¬ ((1:ℚ)/24) = 0)]
  congr 1
  push_cast
  ring

theorem dates_getElem (tz : ℤ) (d : ℚ) (k : ℕ) (t : ℚ)
    (h : ((generateHourlyData tz d).map TelemetryMessage.date)[k]? = some t) :
    t = (k : ℚ) * 3600000 + startTime tz := by
  rw [generateHourlyData_dates, List.getElem?_map] at h
  obtain ⟨m, hm, hf⟩ := Option.map_eq_some'.mp h
  obtain ⟨hlt, hv⟩ := List.getElem?_eq_some.mp hm
  rw [List.getElem_range] at hv
  rw [← hf, ← hv]

theorem values_getElem (tz : ℤ) (d : ℚ) (k : ℕ) (w : ℝ)
    (h : ((generateHourlyData tz d).map TelemetryMessage.waterLevel)[k]? = some w) :
    w = getWaterLevel ((k : ℝ) / 24) := by
  rw [generateHourlyData_values, List.getElem?_map] at h
  obtain ⟨m, hm, hf⟩ := Option.map_eq_some'.mp h
  obtain ⟨hlt, hv⟩ := List.getElem?_eq_some.mp hm
  rw [List.getElem_range] at hv
  rw [← hf, ← hv]

theorem values_getElem_zero :
    ((generateHourlyData 0 (1/24)).map TelemetryMessage.waterLevel)[0]? =
      some (getWaterLevel 0) := by
  rw [generateHourlyData_values, rangeLength_natCast (1/24) 1 (by norm_num)]
  rw [List.getElem?_map, List.getElem?_range (by norm_num : (0:ℕ) < 1)]
  norm_num

theorem getWaterLevel_zero : getWaterLevel 0 = 19.35 := by
  unfold getWaterLevel makeCycle
  norm_num [Real.cos_zero]

theorem getWaterLevel_bounds (x : ℝ) :
    19.35 ≤ getWaterLevel x ∧ getWaterLevel x ≤ 80.65 := by
  unfold getWaterLevel makeCycle
  have h1 := Real.neg_one_le_cos (x * (2 * Real.pi / 365))
  have h2 := Real.cos_le_one (x * (2 * Real.pi / 365))
  have h3 := Real.neg_one_le_cos (x * (2 * Real.pi / 10))
  have h4 := Real.cos_le_one (x * (2 * Real.pi / 10))
  have h5 := Real.neg_one_le_cos (x * (2 * Real.pi / 1))
  have h6 := Real.cos_le_one (x * (2 * Real.pi / 1))
  constructor <;> nlinarith

/-! ## The claims -/

/-- C1, counterexample to the claim as stated.  The step value `x = 2` is
produced by `generate(3)` (it is element 48 of `range(0, 3, 1/24)`), yet
the code's rainfall component `makeCycle(x, -0.5, 10, 0.5)` — whose fourth
positional argument `0.5` is the TREND and whose `yShift` defaults to `0` —
differs there from the spec's claimed component
`cycle(x, -0.5, 10, trend 0, shift 0.5)`: the two values differ by `0.5`.
So the rainfall (and symmetrically the daily-usage) component does NOT
have trend 0 and vertical shift 0.5. -/
theorem C1_counterexample :
    (lodashRange 0 3 (1/24))[48]? = some 2 ∧
    makeCycle 2 (-0.5) 10 0.5 ≠ specCycle 2 (-0.5) 10 0 0.5 := by
  constructor
  · unfold lodashRange
    rw [rangeLength_natCast 3 72 (by norm_num)]
    rw [List.getElem?_map, List.getElem?_range (by norm_num : (48:ℕ) < 72)]
    norm_num
  · unfold makeCycle specCycle
    intro h
    linarith

/-- C1, amended: every sample value produced by `generate` does equal the
spec's three-cycle sum `specValue`, but only because the code's linear
trend terms `0.5*x` and `-0.5*x` and the spec's vertical shifts `0.5` and
`-0.5` each cancel; the code's rainfall and daily-usage components
actually carry trend `0.5` resp. `-0.5` with vertical shift `0` (second
conjunct, definitional in the embedding). -/
theorem C1_value_eq_specValue (tz : ℤ) (d : ℚ) (k : ℕ) (w : ℝ)
    (h : ((generateHourlyData tz d).map TelemetryMessage.waterLevel)[k]? =
      some w) :
    w = specValue ((k : ℝ) / 24) ∧
    getWaterLevel ((k : ℝ) / 24) =
      makeCycle ((k : ℝ) / 24) (-30) 365 0 50 +
      makeCycle ((k : ℝ) / 24) (-0.5) 10 0.5 0 +
      makeCycle ((k : ℝ) / 24) (-0.15) 1 (-0.5) 0 := by
  refine ⟨?_, rfl⟩
  rw [values_getElem tz d k w h]
  unfold getWaterLevel makeCycle specValue specCycle
  ring

/-- C1, witness: the amended claim applied to the first sample of
`generate(1/24)`. -/
theorem C1_witness :
    ((generateHourlyData 0 (1/24)).map TelemetryMessage.waterLevel)[0]? =
      some (getWaterLevel 0) ∧
    (getWaterLevel 0 = specValue (((0:ℕ) : ℝ) / 24) ∧
     getWaterLevel (((0:ℕ) : ℝ) / 24) =
       makeCycle (((0:ℕ) : ℝ) / 24) (-30) 365 0 50 +
       makeCycle (((0:ℕ) : ℝ) / 24) (-0.5) 10 0.5 0 +
       makeCycle (((0:ℕ) : ℝ) / 24) (-0.15) 1 (-0.5) 0) :=
  ⟨values_getElem_zero,
   C1_value_eq_specValue 0 (1/24) 0 (getWaterLevel 0) values_getElem_zero⟩

/-- C2: `generate(7)` yields exactly 168 samples and the first sample's
value is `19.35` (in exact arithmetic: `-30*cos 0 + 0*0 + 50` plus
`-0.5*cos 0 + 0.5*0 + 0` plus `-0.15*cos 0 - 0.5*0 + 0`). -/
theorem C2_generate7 (tz : ℤ) :
    (generateHourlyData tz 7).length = 168 ∧
    ((generateHourlyData tz 7).map TelemetryMessage.waterLevel)[0]? =
      some (19.35 : ℝ) := by
  constructor
  · rw [generateHourlyData_length]
    have h : (24 * (7:ℚ)) = ((168:ℕ) : ℚ) := by norm_num
    rw [h, Int.ceil_natCast, Int.toNat_natCast]
  · rw [generateHourlyData_values, rangeLength_natCast 7 168 (by norm_num)]
    rw [List.getElem?_map, List.getElem?_range (by norm_num : (0:ℕ) < 168)]
    have h0 : getWaterLevel (((0:ℕ) : ℝ) / 24) = 19.35 := by
      rw [(by norm_num : (((0:ℕ) : ℝ) / 24) = 0), getWaterLevel_zero]
    rw [Option.map_some', h0]

/-- C3: for every durationDays ≥ 0 the number of samples is
`ceil(durationDays * 24)` — which equals `durationDays * 24` itself
whenever that product is an integer (denominator 1) — and `generate(0)`
is the empty sequence. -/
theorem C3_sample_count (tz : ℤ) (d : ℚ) (h : 0 ≤ d) :
    (if (24 * d).den = 1
      then ((generateHourlyData tz d).length : ℚ) = 24 * d
      else ((generateHourlyData tz d).length : ℤ) = Int.ceil (24 * d)) ∧
    generateHourlyData tz 0 = [] := by
  have hlen : ((generateHourlyData tz d).length : ℤ) = Int.ceil (24 * d) := by
    rw [generateHourlyData_length]
    exact Int.toNat_of_nonneg (Int.ceil_nonneg (by positivity))
  constructor
  · by_cases hden : (24 * d).den = 1
    · rw [if_pos hden]
      have hnum : ((24 * d).num : ℚ) = 24 * d :=
        Rat.coe_int_num_of_den_eq_one hden
      have hceil : Int.ceil (24 * d) = (24 * d).num := by
        conv_lhs => rw [← hnum]
        rw [Int.ceil_intCast]
      have hq : ((generateHourlyData tz d).length : ℚ) =
          (((24 * d).num : ℤ) : ℚ) := by
        exact_mod_cast congrArg (fun z : ℤ => (z : ℚ)) (hlen.trans hceil)
      rw [hq, hnum]
    · rw [if_neg hden]
      exact hlen
  · apply List.length_eq_zero.mp
    rw [generateHourlyData_length]
    norm_num

/-- C3, witness at durationDays = 1/48, where 24 * (1/48) = 1/2 is not an
integer and the count is ceil(1/2) = 1. -/
theorem C3_witness :
    (0:ℚ) ≤ 1/48 ∧
    ((if (24 * ((1:ℚ)/48)).den = 1
       then ((generateHourlyData 0 (1/48)).length : ℚ) = 24 * ((1:ℚ)/48)
       else ((generateHourlyData 0 (1/48)).length : ℤ) =
         Int.ceil (24 * ((1:ℚ)/48))) ∧
     generateHourlyData 0 0 = []) :=
  ⟨by norm_num, C3_sample_count 0 (1/48) (by norm_num)⟩

/-- C4, counterexample: `generate(-1)` does NOT fail with InvalidArgument —
the source performs no input validation and contains no throw; lodash
`range(0, -1, 1/24)` clamps the negative element count to zero, so the
call returns normally with the empty list. -/
theorem C4_counterexample :
    generateHourlyDataRun 0 (-1) = Except.ok ([] : List TelemetryMessage) := by
  unfold generateHourlyDataRun
  congr 1
  apply List.length_eq_zero.mp
  rw [generateHourlyData_length]
  rw [(by norm_num : (24 * (-1:ℚ)) = ((-24:ℤ) : ℚ)), Int.ceil_intCast]
  rfl

/-- C4, amended: for every durationDays < 0 the call returns normally with
the empty list (a silent clamp): no sample is produced, but no
InvalidArgument error is raised either. -/
theorem C4_negative_silent_empty (tz : ℤ) (d : ℚ) (h : d < 0) :
    generateHourlyDataRun tz d = Except.ok ([] : List TelemetryMessage) := by
  unfold generateHourlyDataRun
  congr 1
  apply List.length_eq_zero.mp
  rw [generateHourlyData_length]
  apply Int.toNat_of_nonpos
  apply Int.ceil_le.mpr
  push_cast
  nlinarith

/-- C4, witness: the amended claim applied at durationDays = -1. -/
theorem C4_witness :
    (-1 : ℚ) < 0 ∧
    generateHourlyDataRun 0 (-1) = Except.ok ([] : List TelemetryMessage) :=
  ⟨by norm_num, C4_negative_silent_empty 0 (-1) (by norm_num)⟩

/-- C5, counterexample: the output is NOT environment-independent.
`new Date(2020, 0, 1, 0)` interprets its arguments in the local timezone,
so two environments whose `getTimezoneOffset()` differ — 60 minutes
versus 0 — produce different sequences for the same input `1/24`: the
single sample's timestamp shifts by 3600000 ms. -/
theorem C5_counterexample :
    generateHourlyData 60 (1/24) ≠ generateHourlyData 0 (1/24) := by
  intro h
  have hd := congrArg (fun l => (List.map TelemetryMessage.date l)[0]?) h
  simp only at hd
  rw [generateHourlyData_dates, generateHourlyData_dates,
      rangeLength_natCast (1/24) 1 (by norm_num)] at hd
  rw [List.getElem?_map, List.getElem?_map,
      List.getElem?_range (by norm_num : (0:ℕ) < 1)] at hd
  simp only [Option.map_some', Option.some.injEq] at hd
  unfold startTime at hd
  norm_num at hd

/-- C5, amended: the generator is deterministic once the environment is
fixed, and the environment influences only the reference epoch: water
levels are identical across environments, timestamps relative to the
environment's epoch are identical, and the lengths agree. -/
theorem C5_determinism (tz1 tz2 : ℤ) (d : ℚ) :
    (generateHourlyData tz1 d).map TelemetryMessage.waterLevel =
      (generateHourlyData tz2 d).map TelemetryMessage.waterLevel ∧
    (generateHourlyData tz1 d).map
        (fun m => TelemetryMessage.date m - startTime tz1) =
      (generateHourlyData tz2 d).map
        (fun m => TelemetryMessage.date m - startTime tz2) ∧
    (generateHourlyData tz1 d).length = (generateHourlyData tz2 d).length := by
  have e1 : ∀ tz : ℤ, (generateHourlyData tz d).map
      (fun m => TelemetryMessage.date m - startTime tz) =
      (List.range (rangeLength 0 d (1/24))).map
        (fun (k : ℕ) => (k : ℚ) * 3600000) := by
    intro tz
    have hc : (fun m => TelemetryMessage.date m - startTime tz) =
        (fun t => t - startTime tz) ∘ TelemetryMessage.date := rfl
    rw [hc, ← List.map_map, generateHourlyData_dates, List.map_map]
    apply List.map_congr_left
    intro k _
    simp only [Function.comp_def]
    ring
  refine ⟨?_, ?_, ?_⟩
  · rw [generateHourlyData_values, generateHourlyData_values]
  · rw [e1, e1]
  · rw [generateHourlyData_length, generateHourlyData_length]

/-- C6: whenever samples k and k+1 both exist, their timestamps differ by
exactly 3600000 ms, so the sequence ascends strictly with uniform
one-hour spacing. -/
theorem C6_hourly_spacing (tz : ℤ) (d : ℚ) (k : ℕ) (t1 t2 : ℚ)
    (h1 : ((generateHourlyData tz d).map TelemetryMessage.date)[k]? = some t1)
    (h2 : ((generateHourlyData tz d).map TelemetryMessage.date)[k+1]? =
      some t2) :
    t2 - t1 = 3600000 := by
  rw [dates_getElem tz d k t1 h1, dates_getElem tz d (k+1) t2 h2]
  push_cast
  ring

theorem dates_two_get0 :
    ((generateHourlyData 0 (1/12)).map TelemetryMessage.date)[0]? =
      some (1577836800000 : ℚ) := by
  rw [generateHourlyData_dates, rangeLength_natCast (1/12) 2 (by norm_num)]
  rw [List.getElem?_map, List.getElem?_range (by norm_num : (0:ℕ) < 2)]
  unfold startTime
  norm_num

theorem dates_two_get1 :
    ((generateHourlyData 0 (1/12)).map TelemetryMessage.date)[1]? =
      some (1577840400000 : ℚ) := by
  rw [generateHourlyData_dates, rangeLength_natCast (1/12) 2 (by norm_num)]
  rw [List.getElem?_map, List.getElem?_range (by norm_num : (1:ℕ) < 2)]
  unfold startTime
  norm_num

/-- C6, witness: the two samples of `generate(1/12)` are an hour apart. -/
theorem C6_witness :
    ((generateHourlyData 0 (1/12)).map TelemetryMessage.date)[0]? =
      some (1577836800000 : ℚ) ∧
    ((generateHourlyData 0 (1/12)).map TelemetryMessage.date)[0+1]? =
      some (1577840400000 : ℚ) ∧
    (1577840400000 : ℚ) - 1577836800000 = 3600000 :=
  ⟨dates_two_get0, dates_two_get1,
   C6_hourly_spacing 0 (1/12) 0 1577836800000 1577840400000
     dates_two_get0 dates_two_get1⟩

/-- C7: each sample's timestamp is the reference epoch plus
`x * 86400000` ms, with `x = k * (1/24)` the k-th step value and the
reference epoch the environment's `Date(2020, 0, 1, 0)` — start of the
reference year 2020, hour 0. -/
theorem C7_timestamp (tz : ℤ) (d : ℚ) (k : ℕ) (t : ℚ)
    (h : ((generateHourlyData tz d).map TelemetryMessage.date)[k]? = some t) :
    t = startTime tz + ((k : ℚ) * (1/24)) * 86400000 := by
  rw [dates_getElem tz d k t h]
  ring

theorem dates_one_get0 :
    ((generateHourlyData 0 (1/24)).map TelemetryMessage.date)[0]? =
      some (1577836800000 : ℚ) := by
  rw [generateHourlyData_dates, rangeLength_natCast (1/24) 1 (by norm_num)]
  rw [List.getElem?_map, List.getElem?_range (by norm_num : (0:ℕ) < 1)]
  unfold startTime
  norm_num

/-- C7, witness: the first sample of `generate(1/24)` sits exactly at the
UTC reference epoch. -/
theorem C7_witness :
    ((generateHourlyData 0 (1/24)).map TelemetryMessage.date)[0]? =
      some (1577836800000 : ℚ) ∧
    (1577836800000 : ℚ) = startTime 0 + (((0:ℕ) : ℚ) * (1/24)) * 86400000 :=
  ⟨dates_one_get0, C7_timestamp 0 (1/24) 0 1577836800000 dates_one_get0⟩

/-- C8: for nonzero period, `makeCycle` computes
`amplitude * cos(x * (2π/period)) + trend * x + shift`; its parameter
defaults are 1/1/0/0 (so `makeCycle x` is `makeCycle x 1 1 0 0`); and at
`x = 10` a trend `T` adds exactly `10 * T` to the trend-free result. -/
theorem C8_cycle_formula (x a p t s T : ℝ) (hp : p ≠ 0) :
    makeCycle x a p t s = a * Real.cos (x * (2 * Real.pi / p)) + t * x + s ∧
    makeCycle x = makeCycle x 1 1 0 0 ∧
    makeCycle 10 a p T s - makeCycle 10 a p 0 s = 10 * T := by
  refine ⟨rfl, rfl, ?_⟩
  unfold makeCycle
  ring

/-- C8, witness at x = 0, amplitude 1, period 1, trend 0, shift 0, T = 2. -/
theorem C8_witness :
    (1 : ℝ) ≠ 0 ∧
    (makeCycle 0 1 1 0 0 =
        1 * Real.cos (0 * (2 * Real.pi / 1)) + 0 * 0 + 0 ∧
     makeCycle 0 = makeCycle 0 1 1 0 0 ∧
     makeCycle 10 1 1 2 0 - makeCycle 10 1 1 0 0 = 10 * 2) :=
  ⟨by norm_num, C8_cycle_formula 0 1 1 0 0 2 (by norm_num)⟩

/-- C9: for every table name and options, the wrapper's
`deleteTableIfExists` hands the underlying `createTable` operation — not
`deleteTableIfExists` — to `promiseResult`; it is extensionally the
wrapper's own `createTable`, so its promised boolean never comes from a
delete. -/
theorem C9_deleteTableIfExists_creates (ρ : Type) (table : String)
    (options : Option ρ) :
    (PromiseTableService.deleteTableIfExists ρ table options).op =
        UnderlyingOp.createTable ∧
    (PromiseTableService.deleteTableIfExists ρ table options).op ≠
        UnderlyingOp.deleteTableIfExists ∧
    PromiseTableService.deleteTableIfExists ρ table options =
        PromiseTableService.createTable ρ table options := by
  refine ⟨rfl, ?_, rfl⟩
  intro hco
  exact UnderlyingOp.noConfusion hco

/-- C10: every sample value lies in [19.35, 80.65] (exact real
arithmetic): the linear terms 0.5*x and -0.5*x cancel, leaving 50 minus
three cosines of total amplitude 30.65. -/
theorem C10_value_bounds (tz : ℤ) (d : ℚ) (k : ℕ) (w : ℝ)
    (h : ((generateHourlyData tz d).map TelemetryMessage.waterLevel)[k]? =
      some w) :
    19.35 ≤ w ∧ w ≤ 80.65 := by
  rw [values_getElem tz d k w h]
  exact getWaterLevel_bounds ((k : ℝ) / 24)

/-- C10, witness: the first sample of `generate(1/24)`. -/
theorem C10_witness :
    ((generateHourlyData 0 (1/24)).map TelemetryMessage.waterLevel)[0]? =
      some (getWaterLevel 0) ∧
    (19.35 ≤ getWaterLevel 0 ∧ getWaterLevel 0 ≤ 80.65) :=
  ⟨values_getElem_zero,
   C10_value_bounds 0 (1/24) 0 (getWaterLevel 0) values_getElem_zero⟩
